import Mathlib

/-!
Verification of the time-zone rule model and offset-resolution engine of
`dateutil/tz/tz.py` (hugovk/dateutil), via a shallow embedding.

Wall-clock readings are represented by their total seconds as an `Int`
together with the PEP-495 fold bit; the host calendar arithmetic that the
spec treats as an external collaborator is embedded only where a claim
needs it (the `CivilDT` section below).  Fallible operations return
`Except String`.
-/

namespace DateutilTz

/-! ## Resolver / disambiguation layer (tz.py lines 1141-1264)

A zone is the capability record the resolver layer consumes:
`utcoffset`/`dst` answer for a wall reading and a fold, `fromutc` maps a
UTC reading to the wall reading in the zone (the zone side of
`astimezone`), and `isAmbiguousFn` models the optional `is_ambiguous`
method looked up by `getattr` (`none` when the attribute is absent,
`.error` when calling it raises). -/

structure Zone where
  utcoffset : Int → Nat → Int
  dst : Int → Nat → Int
  fromutc : Int → Int
  isAmbiguousFn : Option (Int → Nat → Except Unit Bool) := none

/-- `datetime_exists(dt, tz=None)` from tz.py: choose the zone (raising on
a naive datetime with no `tz`), strip the datetime's own tzinfo, and test
whether the wall reading survives the round trip through UTC
(`dt.replace(tzinfo=tz).astimezone(UTC).astimezone(tz)`); `replace`
preserves the fold, so the zone's offset is taken at the given fold. -/
def datetime_exists (wall : Int) (fold : Nat) (dtTz : Option Zone)
    (tz : Option Zone) : Except String Bool :=
  match tz, dtTz with
  | none, none => .error ("Datetime is naive and no time zone provided.")
  | none, some t => .ok (decide (t.fromutc (wall - t.utcoffset wall fold) = wall))
  | some t, _ => .ok (decide (t.fromutc (wall - t.utcoffset wall fold) = wall))

/-- The fold-comparison fallback of `datetime_ambiguous`: compare offset
and dst of the two folds of the same wall reading. -/
def datetime_ambiguous_fold_check (t : Zone) (wall : Int) : Bool :=
  let same_offset := decide (t.utcoffset wall 0 = t.utcoffset wall 1)
  let same_dst := decide (t.dst wall 0 = t.dst wall 1)
  !(same_offset && same_dst)

/-- The body of `datetime_ambiguous` once the zone is chosen: use the
zone's own `is_ambiguous` when the attribute exists and does not raise,
otherwise fall back to the fold comparison. -/
def datetime_ambiguous_core (t : Zone) (wall : Int) (fold : Nat) : Bool :=
  match t.isAmbiguousFn with
  | some f =>
      match f wall fold with
      | .ok b => b
      | .error _ => datetime_ambiguous_fold_check t wall
  | none => datetime_ambiguous_fold_check t wall

/-- `datetime_ambiguous(dt, tz=None)` from tz.py. -/
def datetime_ambiguous (wall : Int) (fold : Nat) (dtTz : Option Zone)
    (tz : Option Zone) : Except String Bool :=
  match tz, dtTz with
  | none, none => .error ("Datetime is naive and no time zone provided.")
  | none, some t => .ok (datetime_ambiguous_core t wall fold)
  | some t, _ => .ok (datetime_ambiguous_core t wall fold)

/-- `resolve_imaginary(dt)` from tz.py: for an aware, nonexistent reading,
shift by the offset change between 24 hours after and 24 hours before the
reading; otherwise return the input unchanged.  Datetime-timedelta
arithmetic produces fold 0, hence the fold of a shifted result. -/
def resolve_imaginary (dtTz : Option Zone) (wall : Int) (fold : Nat) :
    Int × Nat :=
  match dtTz with
  | none => (wall, fold)
  | some t =>
      match datetime_exists wall fold (some t) none with
      | .ok false =>
          let curr_offset := t.utcoffset (wall + 86400) 0
          let old_offset := t.utcoffset (wall - 86400) 0
          (wall + (curr_offset - old_offset), 0)
      | _ => (wall, fold)

/-- Claim C5: for an aware reading that does not exist, `resolve_imaginary`
shifts it forward by exactly the difference between the zone's UTC offset
24 hours after and 24 hours before the reading; an existing reading is
returned unchanged. -/
theorem resolve_imaginary_shifts_by_offset_change (t : Zone) (wall : Int)
    (fold : Nat) :
    (datetime_exists wall fold (some t) none = .ok false →
      resolve_imaginary (some t) wall fold =
        (wall + (t.utcoffset (wall + 86400) 0 - t.utcoffset (wall - 86400) 0), 0)) ∧
    (datetime_exists wall fold (some t) none = .ok true →
      resolve_imaginary (some t) wall fold = (wall, fold)) := by
  constructor <;> intro h <;> simp [resolve_imaginary, h]

/-- A zone with a 24-hour "spring forward" gap (a date-line-crossing jump):
at UTC instant 1000000 the offset jumps from 0 to +86400, so the wall
readings in [1000000, 1086400) never occur. -/
def gapZone : Zone where
  utcoffset wall _ := if wall < 1086400 then 0 else 86400
  dst _ _ := 0
  fromutc u := if u < 1000000 then u else u + 86400

theorem resolve_imaginary_shifts_by_offset_change_witness :
    datetime_exists 1003600 0 (some gapZone) none = .ok false ∧
    resolve_imaginary (some gapZone) 1003600 0 = (1090000, 0) ∧
    datetime_exists 500 0 (some gapZone) none = .ok true ∧
    resolve_imaginary (some gapZone) 500 0 = (500, 0) := by
  refine ⟨rfl, ?_, rfl, ?_⟩
  · have h := (resolve_imaginary_shifts_by_offset_change gapZone 1003600 0).1 rfl
    simpa using h
  · exact (resolve_imaginary_shifts_by_offset_change gapZone 500 0).2 rfl

/-- A zone (any Python tzinfo may behave like this) under which no wall
reading exists and the 48-hour offset change is a constant nonzero 3600,
so `resolve_imaginary` keeps moving every reading forward. -/
def driftZone : Zone where
  utcoffset wall _ := if wall < 0 then 0 else 3600
  dst _ _ := 0
  fromutc u := u + 10

/-- Claim C6, counterexample: `resolve_imaginary` is not idempotent for
every aware datetime — under `driftZone` the reading 0 resolves to 3600,
which is itself imaginary and resolves further to 7200. -/
theorem resolve_imaginary_not_idempotent :
    resolve_imaginary (some driftZone)
        (resolve_imaginary (some driftZone) 0 0).1
        (resolve_imaginary (some driftZone) 0 0).2
      ≠ resolve_imaginary (some driftZone) 0 0 := by
  decide

/-- Claim C6 as amended: whenever the value produced by
`resolve_imaginary` exists in its zone (which the shift does not
guarantee for every zone), applying `resolve_imaginary` again returns it
unchanged, so the function is idempotent there. -/
theorem resolve_imaginary_idempotent_of_exists (t : Zone) (wall : Int)
    (fold : Nat)
    (h : datetime_exists (resolve_imaginary (some t) wall fold).1
        (resolve_imaginary (some t) wall fold).2 (some t) none = .ok true) :
    resolve_imaginary (some t)
        (resolve_imaginary (some t) wall fold).1
        (resolve_imaginary (some t) wall fold).2
      = resolve_imaginary (some t) wall fold := by
  conv_lhs => rw [resolve_imaginary]
  rw [h]

theorem resolve_imaginary_idempotent_of_exists_witness :
    resolve_imaginary (some gapZone)
        (resolve_imaginary (some gapZone) 1003600 0).1
        (resolve_imaginary (some gapZone) 1003600 0).2
      = resolve_imaginary (some gapZone) 1003600 0 :=
  resolve_imaginary_idempotent_of_exists gapZone 1003600 0 rfl

/-- Claim C10: a naive datetime with no `tz` argument makes both
`datetime_exists` and `datetime_ambiguous` raise, and when `tz` is
supplied the datetime's own tzinfo does not influence either result. -/
theorem naive_datetime_requires_tz (wall : Int) (fold : Nat)
    (dtTzA dtTzB : Option Zone) (t : Zone) :
    datetime_exists wall fold none none =
      .error ("Datetime is naive and no time zone provided.") ∧
    datetime_ambiguous wall fold none none =
      .error ("Datetime is naive and no time zone provided.") ∧
    datetime_exists wall fold dtTzA (some t) =
      datetime_exists wall fold dtTzB (some t) ∧
    datetime_ambiguous wall fold dtTzA (some t) =
      datetime_ambiguous wall fold dtTzB (some t) := by
  refine ⟨rfl, rfl, ?_, ?_⟩ <;> cases dtTzA <;> cases dtTzB <;> rfl

/-! ## Fixed-offset zones (tz.py lines 45-202)

`tzutc` and `tzoffset` as values; `fixedEq` is Python `==` over them,
including the interpreter's reflected-operand fallback when one side's
`__eq__` answers NotImplemented: `tzoffset.__eq__` only compares two
`tzoffset`s by offset, `tzutc.__eq__` accepts `tzutc` or a zero-offset
`tzoffset`. -/

inductive FixedZone where
  | tzutc : FixedZone
  | tzoffset (name : String) (offset : Int) : FixedZone

def fixedEq : FixedZone → FixedZone → Bool
  | .tzutc, .tzutc => true
  | .tzutc, .tzoffset _ o => decide (o = 0)
  | .tzoffset _ o, .tzutc => decide (o = 0)
  | .tzoffset _ o1, .tzoffset _ o2 => decide (o1 = o2)

/-- Claim C7: two `tzoffset`s are equal exactly when their offsets are
(names ignored); `tzoffset("UTC", 0)` equals the UTC singleton; the UTC
singleton differs from every nonzero `tzoffset`. -/
theorem fixed_zone_equality (n1 n2 : String) (o1 o2 o : Int) :
    (fixedEq (.tzoffset n1 o1) (.tzoffset n2 o2) = true ↔ o1 = o2) ∧
    fixedEq (.tzoffset ("UTC") 0) .tzutc = true ∧
    (o ≠ 0 → fixedEq .tzutc (.tzoffset n1 o) = false) := by
  refine ⟨?_, rfl, ?_⟩
  · simp [fixedEq]
  · intro h
    simp [fixedEq, h]

theorem fixed_zone_equality_witness :
    (fixedEq (.tzoffset ("EST") (-18000)) (.tzoffset ("CDT") (-18000)) = true ↔
      (-18000 : Int) = -18000) ∧
    fixedEq (.tzoffset ("UTC") 0) .tzutc = true ∧
    fixedEq .tzutc (.tzoffset ("EST") (-18000)) = false := by
  have h := fixed_zone_equality ("EST") ("CDT") (-18000) (-18000) (-18000)
  exact ⟨h.1, h.2.1, h.2.2 (by decide)⟩



/-! ## tzrange and tzstr (tz.py lines 332-611)

The host calendar arithmetic (`datetime.datetime`, `relativedelta`) is an
external collaborator per the spec; it is embedded below as `CivilDT`
(year, month, day, seconds of day) with day stepping, a standard
days-since-epoch formula for the weekday, and `RDelta`/`applyDelta`
modelling the recurrence anchors. -/

structure CivilDT where
  year : Int
  month : Nat
  day : Nat
  sod : Int
deriving DecidableEq

/-- Gregorian leap-year test. -/
def isLeap (y : Int) : Bool := (y % 4 == 0 && y % 100 != 0) || y % 400 == 0

/-- Length of month `m` of year `y`. -/
def daysInMonth (y : Int) (m : Nat) : Nat :=
  if m = 2 then (if isLeap y then 29 else 28)
  else if m = 4 ∨ m = 6 ∨ m = 9 ∨ m = 11 then 30
  else 31

/-- Step one calendar day forward. -/
def nextDay (t : CivilDT) : CivilDT :=
  if t.day < daysInMonth t.year t.month then { t with day := t.day + 1 }
  else if t.month < 12 then { t with month := t.month + 1, day := 1 }
  else { t with year := t.year + 1, month := 1, day := 1 }

/-- Step one calendar day backward. -/
def prevDay (t : CivilDT) : CivilDT :=
  if 1 < t.day then { t with day := t.day - 1 }
  else if 1 < t.month then { t with month := t.month - 1, day := daysInMonth t.year (t.month - 1) }
  else { t with year := t.year - 1, month := 12, day := 31 }

def addDaysNat : Nat → CivilDT → CivilDT
  | 0, t => t
  | n + 1, t => addDaysNat n (nextDay t)

def subDaysNat : Nat → CivilDT → CivilDT
  | 0, t => t
  | n + 1, t => subDaysNat n (prevDay t)

/-- Shift a civil date-time by a signed number of days. -/
def addDays (k : Int) (t : CivilDT) : CivilDT :=
  if 0 ≤ k then addDaysNat k.toNat t else subDaysNat (-k).toNat t

/-- Days since 1970-01-01 of a civil date (the standard civil-from-days
inverse); only its value modulo 7 is consumed, via `weekdayOf`. -/
def daysFromCivil (y : Int) (m : Nat) (d : Nat) : Int :=
  let y2 : Int := if m ≤ 2 then y - 1 else y
  let era : Int := Int.fdiv y2 400
  let yoe : Int := y2 - era * 400
  let mp : Int := ((m : Int) + 9) % 12
  let doy : Int := (153 * mp + 2) / 5 + (d : Int) - 1
  let doe : Int := yoe * 365 + yoe / 4 - yoe / 100 + doy
  era * 146097 + doe - 719468

/-- Python `datetime.weekday()`: Monday = 0 .. Sunday = 6
(1970-01-01 was a Thursday). -/
def weekdayOf (y : Int) (m : Nat) (d : Nat) : Int :=
  (daysFromCivil y m d + 3) % 7

/-- `daysFromCivil` is affine in the day field. -/
theorem daysFromCivil_add (y : Int) (m : Nat) (d k : Nat) :
    daysFromCivil y m (d + k) = daysFromCivil y m d + k := by
  simp only [daysFromCivil]
  push_cast
  ring

/-- Weekdays advance with the day of month, modulo 7. -/
theorem weekdayOf_add (y : Int) (m : Nat) (d k : Nat) :
    weekdayOf y m (d + k) = (weekdayOf y m d + k) % 7 := by
  unfold weekdayOf
  rw [daysFromCivil_add]
  omega

/-- Day stepping that stays inside one month just adds to the day. -/
theorem addDaysNat_in_month (n : Nat) (t : CivilDT)
    (h : t.day + n ≤ daysInMonth t.year t.month) :
    addDaysNat n t = { t with day := t.day + n } := by
  induction n generalizing t with
  | zero => rfl
  | succ n ih =>
      have h1 : t.day < daysInMonth t.year t.month := by omega
      have h2 : nextDay t = { t with day := t.day + 1 } := by
        simp [nextDay, h1]
      rw [addDaysNat, h2, ih]
      · simp [Nat.add_assoc, Nat.add_comm 1 n]
      · simpa using by omega

/-- Backward day stepping that stays inside one month just subtracts. -/
theorem subDaysNat_in_month (n : Nat) (t : CivilDT) (h : n < t.day) :
    subDaysNat n t = { t with day := t.day - n } := by
  induction n generalizing t with
  | zero => rfl
  | succ n ih =>
      have h1 : 1 < t.day := by omega
      have h2 : prevDay t = { t with day := t.day - 1 } := by
        simp [prevDay, h1]
      rw [subDaysNat, h2, ih]
      · simp; omega
      · simpa using by omega

/-- Modelled from the spec: a recurrence anchor as built by the host's
relativedelta (dateutil/relativedelta.py is not under src).  It carries
an optional absolute month and day, an optional nth-weekday-of-month
selector (n, weekday with Monday = 0), the two year-day selectors of the
POSIX J/n rule forms, and the spec's single time-of-day-offset field in
seconds (hour/minute/second inputs are normalised into it, which is what
makes `relativedelta(hours=+2)` equal `relativedelta(seconds=7200)`). -/
structure RDelta where
  month : Option Nat := none
  day : Option Nat := none
  weekday : Option (Int × Nat) := none
  yearday : Option Nat := none
  nlyearday : Option Nat := none
  seconds : Int := 0
deriving DecidableEq

/-- Python truthiness of a relativedelta: false only when empty. -/
def RDelta.truthy (k : RDelta) : Bool :=
  k.month.isSome || k.day.isSome || k.weekday.isSome ||
  k.yearday.isSome || k.nlyearday.isSome || decide (k.seconds ≠ 0)

/-- Modelled from the spec: adding a recurrence anchor to a civil
date-time — replace the absolute month/day (day clamped to the month
length), add the time-of-day offset carrying whole days, then move to the
selected nth weekday: forward from the anchor for positive n, backward
for negative n.  The year-day selectors are carried for equality
comparisons only; no zone built here applies them. -/
def applyDelta (base : CivilDT) (k : RDelta) : CivilDT :=
  let y := base.year
  let m := k.month.getD base.month
  let d := min (daysInMonth y m) (k.day.getD base.day)
  let sod := base.sod + k.seconds
  let t1 : CivilDT := addDays (Int.fdiv sod 86400) ⟨y, m, d, sod % 86400⟩
  match k.weekday with
  | none => t1
  | some (n, wd) =>
      let nth : Int := if n = 0 then 1 else n
      let w := weekdayOf t1.year t1.month t1.day
      let jump : Int :=
        if 0 < nth then ((nth.natAbs : Int) - 1) * 7 + (7 - w + (wd : Int)) % 7
        else -(((nth.natAbs : Int) - 1) * 7 + (w - (wd : Int)) % 7)
      addDays jump t1

/-- The fields set by `tzrange.__init__` in tz.py (offsets in seconds;
`_dst_base_offset_` is derived and omitted). -/
structure TzRange where
  std_abbr : Option String
  dst_abbr : Option String
  std_offset : Int
  dst_offset : Int
  start_delta : Option RDelta
  end_delta : Option RDelta
  hasdst : Bool
deriving DecidableEq

/-- A start/end argument of `tzrange.__init__`: Python None, the False
sentinel passed internally by `tzstr.__init__`, or an explicit rule. -/
inductive StartArg where
  | noneArg : StartArg
  | falseArg : StartArg
  | rule (k : RDelta) : StartArg

/-- Python truthiness of an optional string. -/
def strTruthy : Option String → Bool
  | some s => decide (s ≠ "")
  | none => false

/-- Python truthiness of an optional relativedelta. -/
def deltaTruthy : Option RDelta → Bool
  | some k => k.truthy
  | none => false

/-- The default DST start rule of tz.py lines 440-441:
`relativedelta(hours=+2, month=4, day=1, weekday=SU(+1))`. -/
def defaultStart : RDelta :=
  { month := some 4, day := some 1, weekday := some (1, 6), seconds := 7200 }

/-- The default DST end rule of tz.py lines 446-447:
`relativedelta(hours=+1, month=10, day=31, weekday=SU(-1))`. -/
def defaultEnd : RDelta :=
  { month := some 10, day := some 31, weekday := some (-1, 6), seconds := 3600 }

/-- `tzrange.__init__` from tz.py (the timedelta/total_seconds coercion
collapses with offsets already in seconds). -/
def tzrangeInit (stdabbr : String) (stdoffset : Option Int)
    (dstabbr : Option String) (dstoffset : Option Int)
    (start : StartArg) (endArg : StartArg) : TzRange :=
  let std_offset := stdoffset.getD 0
  let dst_offset :=
    match dstoffset with
    | some o => o
    | none =>
        if strTruthy dstabbr ∧ stdoffset.isSome then std_offset + 3600 else 0
  let start_delta :=
    match start with
    | .noneArg => if strTruthy dstabbr then some defaultStart else none
    | .falseArg => none
    | .rule k => some k
  let end_delta :=
    match endArg with
    | .noneArg => if strTruthy dstabbr then some defaultEnd else none
    | .falseArg => none
    | .rule k => some k
  { std_abbr := some stdabbr, dst_abbr := dstabbr,
    std_offset := std_offset, dst_offset := dst_offset,
    start_delta := start_delta, end_delta := end_delta,
    hasdst := deltaTruthy start_delta }

/-- `tzrange.transitions(year)` from tz.py.  The `_ , _` fallback is the
source's crash path (adding None to a datetime) and is unreachable for
zones whose construction set `hasdst`. -/
def transitions (z : TzRange) (year : Int) : Option (CivilDT × CivilDT) :=
  if !z.hasdst then none
  else
    let base : CivilDT := { year := year, month := 1, day := 1, sod := 0 }
    match z.start_delta, z.end_delta with
    | some s, some e => some (applyDelta base s, applyDelta base e)
    | _, _ => none

/-- `tzrange.__eq__` from tz.py: abbreviations, offsets and the two
recurrence deltas. -/
def tzrangeEq (a b : TzRange) : Bool :=
  decide (a.std_abbr = b.std_abbr) && decide (a.dst_abbr = b.dst_abbr) &&
  decide (a.std_offset = b.std_offset) && decide (a.dst_offset = b.dst_offset) &&
  decide (a.start_delta = b.start_delta) && decide (a.end_delta = b.end_delta)

/-- One start/end rule spec in the result of `dateutil.parser._parsetz`
(every field optional, as on the parser's result object). -/
structure TzRuleSpec where
  month : Option Nat := none
  week : Option Int := none
  weekday : Option Nat := none
  day : Option Nat := none
  yday : Option Nat := none
  jyday : Option Nat := none
  time : Option Int := none
deriving DecidableEq

/-- The attributes of the `_parsetz` result consumed by
`tzstr.__init__` (the parser itself lives outside src). -/
structure TzParseRes where
  stdabbr : String
  stdoffset : Option Int
  dstabbr : Option String
  dstoffset : Option Int
  start : TzRuleSpec
  endSpec : TzRuleSpec
deriving DecidableEq

/-- `tzstr._delta` from tz.py: build the recurrence anchor for one parsed
start/end spec; an empty spec defaults to first-Sunday-of-April /
last-Sunday-of-October at 7200 seconds, and an end anchor is shifted onto
standard time by subtracting the DST base offset (the source's
`delta.seconds + delta.days * 86400` decomposition of the timedelta). -/
def tzstrDelta (dst_offset std_offset : Int) (x : TzRuleSpec)
    (isend : Bool) : RDelta :=
  let k1 : RDelta :=
    match x.month with
    | some mo =>
        (match x.weekday with
         | some wd =>
             let wk := x.week.getD 0
             if 0 < wk then { month := some mo, weekday := some (wk, wd), day := some 1 }
             else { month := some mo, weekday := some (wk, wd), day := some 31 }
         | none =>
             match x.day with
             | some dd =>
                 if dd ≠ 0 then { month := some mo, day := some dd }
                 else { month := some mo }
             | none => { month := some mo })
    | none =>
        match x.yday with
        | some yd => { yearday := some yd }
        | none =>
            match x.jyday with
            | some jd => { nlyearday := some jd }
            | none => {}
  let k2 : RDelta :=
    if k1 = {} then
      (if !isend then { month := some 4, day := some 1, weekday := some (1, 6) }
       else { month := some 10, day := some 31, weekday := some (-1, 6) })
    else k1
  let secs := x.time.getD 7200
  let diff := dst_offset - std_offset
  let secs2 := if isend then secs - (diff % 86400 + Int.fdiv diff 86400 * 86400) else secs
  { k2 with seconds := secs2 }

/-- `tzstr.__init__` from tz.py, starting from the already-parsed TZ
string: flip the sign of a GMT/UTC standard offset unless `posix_offset`,
run `tzrange.__init__` with the False start/end sentinels, then install
the deltas built by `tzstr._delta`. -/
def tzstrInit (res : TzParseRes) (posix_offset : Bool) : TzRange :=
  let res :=
    if (res.stdabbr = "GMT" ∨ res.stdabbr = "UTC") ∧ posix_offset = false then
      { res with stdoffset := res.stdoffset.map (fun o => -o) }
    else res
  let base := tzrangeInit res.stdabbr res.stdoffset res.dstabbr res.dstoffset
    .falseArg .falseArg
  if !strTruthy res.dstabbr then
    { base with start_delta := none, end_delta := none, hasdst := false }
  else
    let sd := tzstrDelta base.dst_offset base.std_offset res.start false
    let ed := if sd.truthy then
        some (tzstrDelta base.dst_offset base.std_offset res.endSpec true)
      else base.end_delta
    { base with start_delta := some sd, end_delta := ed, hasdst := sd.truthy }

/-- Modelled from the spec: `_parsetz` (outside src) on a string made of
a bare abbreviation and a signed offset written as `s` seconds, e.g.
"GMT+3" is `parsetzGmtStyle "GMT" 10800`.  Under the POSIX convention the
written offset is how far local time lies behind UTC, so the parsed
stdoffset is its negation. -/
def parsetzGmtStyle (abbr : String) (s : Int) : TzParseRes :=
  { stdabbr := abbr, stdoffset := some (-s), dstabbr := none, dstoffset := none,
    start := {}, endSpec := {} }

/-- Modelled from the spec: `_parsetz` (outside src) on "EST5EDT" —
standard abbreviation EST five hours behind UTC, DST abbreviation EDT,
no explicit DST offset and no explicit rules. -/
def parsetzEST5EDT : TzParseRes :=
  { stdabbr := "EST", stdoffset := some (-18000), dstabbr := some "EDT",
    dstoffset := none, start := {}, endSpec := {} }

/-- Claim C2: for a POSIX TZ string whose standard abbreviation is GMT or
UTC with a written signed offset of `s` seconds, default tzstr
(posix_offset=False) yields standard offset `s` — the POSIX sign flipped,
so "GMT+3" is 3 hours ahead of UTC — while posix_offset=True keeps the
POSIX sign, yielding `-s`. -/
theorem tzstr_gmt_sign_flip (abbr : String) (s : Int)
    (h : abbr = "GMT" ∨ abbr = "UTC") :
    (tzstrInit (parsetzGmtStyle abbr s) false).std_offset = s ∧
    (tzstrInit (parsetzGmtStyle abbr s) true).std_offset = -s := by
  rcases h with rfl | rfl <;>
    exact ⟨by simp [tzstrInit, parsetzGmtStyle, tzrangeInit, strTruthy],
           by simp [tzstrInit, parsetzGmtStyle, tzrangeInit, strTruthy]⟩

theorem tzstr_gmt_sign_flip_witness :
    (tzstrInit (parsetzGmtStyle "GMT" 10800) false).std_offset = 10800 ∧
    (tzstrInit (parsetzGmtStyle "GMT" 10800) true).std_offset = -10800 :=
  tzstr_gmt_sign_flip "GMT" 10800 (Or.inl rfl)

/-- Claim C3: parsing "EST5EDT" with default posix_offset yields a zone
equal, under the tzrange equality relation, to
`tzrange("EST", -18000, "EDT")` with defaulted DST offset and rules. -/
theorem tzstr_EST5EDT_eq_tzrange :
    tzrangeEq (tzstrInit parsetzEST5EDT false)
      (tzrangeInit "EST" (some (-18000)) (some "EDT") none .noneArg .noneArg) =
      true := by
  decide

/-- Claim C4: a tzrange built with a DST abbreviation but no explicit
rules reports, for every year, transitions at 2:00 on the first Sunday of
April and 1:00 standard time on the last Sunday of October; with no DST
abbreviation and no rules it reports none. -/
theorem tzrange_default_transitions (ab dab : String) (off : Int) (year : Int)
    (hdab : dab ≠ "") :
    (∃ s e,
      transitions (tzrangeInit ab (some off) (some dab) none .noneArg .noneArg)
          year = some (s, e) ∧
      s.year = year ∧ s.month = 4 ∧ 1 ≤ s.day ∧ s.day ≤ 7 ∧
      weekdayOf s.year s.month s.day = 6 ∧ s.sod = 7200 ∧
      e.year = year ∧ e.month = 10 ∧ 25 ≤ e.day ∧ e.day ≤ 31 ∧
      weekdayOf e.year e.month e.day = 6 ∧ e.sod = 3600) ∧
    transitions (tzrangeInit ab (some off) none none .noneArg .noneArg) year =
      none := by
  constructor
  · have hz : tzrangeInit ab (some off) (some dab) none .noneArg .noneArg =
        { std_abbr := some ab, dst_abbr := some dab, std_offset := off,
          dst_offset := off + 3600, start_delta := some defaultStart,
          end_delta := some defaultEnd, hasdst := true } := by
      simp [tzrangeInit, strTruthy, hdab, deltaTruthy, RDelta.truthy, defaultStart]
    -- start rule
    set w := weekdayOf year 4 1 with hwdef
    have hw : 0 ≤ w ∧ w < 7 := by rw [hwdef]; unfold weekdayOf; omega
    have hstart : applyDelta ⟨year, 1, 1, 0⟩ defaultStart =
        addDays ((((1 : Int).natAbs : Int) - 1) * 7 + (7 - w + (6 : Nat)) % 7)
          ⟨year, 4, 1, 7200⟩ := rfl
    have hjump : ((((1 : Int).natAbs : Int) - 1) * 7 + (7 - w + ((6 : Nat) : Int)) % 7) = 6 - w := by
      simp only [Int.natAbs_one]
      push_cast
      omega
    have haddS : addDays (6 - w) ⟨year, 4, 1, 7200⟩ =
        ⟨year, 4, 1 + (6 - w).toNat, 7200⟩ := by
      rw [addDays, if_pos (by omega)]
      rw [addDaysNat_in_month]
      simp [daysInMonth]
      omega
    -- end rule
    set w2 := weekdayOf year 10 31 with hw2def
    have hw2 : 0 ≤ w2 ∧ w2 < 7 := by rw [hw2def]; unfold weekdayOf; omega
    set k2 := (w2 - ((6 : Nat) : Int)) % 7 with hk2def
    have hk2 : 0 ≤ k2 ∧ k2 < 7 := by rw [hk2def]; omega
    have hend : applyDelta ⟨year, 1, 1, 0⟩ defaultEnd =
        addDays (-((((-1 : Int).natAbs : Int) - 1) * 7 + k2)) ⟨year, 10, 31, 3600⟩ := rfl
    have hjump2 : (-((((-1 : Int).natAbs : Int) - 1) * 7 + k2)) = -k2 := by
      simp only [Int.natAbs_neg, Int.natAbs_one]
      push_cast
      ring
    have haddE : addDays (-k2) ⟨year, 10, 31, 3600⟩ =
        ⟨year, 10, 31 - k2.toNat, 3600⟩ := by
      by_cases hk0 : k2 = 0
      · rw [hk0]
        simp [addDays, addDaysNat]
      · have hlt : 0 < k2 := lt_of_le_of_ne hk2.1 (Ne.symm hk0)
        rw [addDays, if_neg (by omega)]
        rw [subDaysNat_in_month]
        · simp only [neg_neg]
        · simp only [neg_neg]
          omega
    refine ⟨⟨year, 4, 1 + (6 - w).toNat, 7200⟩, ⟨year, 10, 31 - k2.toNat, 3600⟩, ?_, ?_⟩
    · rw [hz]
      show some (applyDelta ⟨year, 1, 1, 0⟩ defaultStart,
        applyDelta ⟨year, 1, 1, 0⟩ defaultEnd) = _
      rw [hstart, hjump, haddS, hend, hjump2, haddE]
    · refine ⟨rfl, rfl, ?_, ?_, ?_, rfl, rfl, rfl, ?_, ?_, ?_, rfl⟩
      · show (1 : Nat) ≤ 1 + (6 - w).toNat
        omega
      · show 1 + (6 - w).toNat ≤ 7
        omega
      · show weekdayOf year 4 (1 + (6 - w).toNat) = 6
        have := weekdayOf_add year 4 1 (6 - w).toNat
        rw [← hwdef] at this
        omega
      · show (25 : Nat) ≤ 31 - k2.toNat
        omega
      · show 31 - k2.toNat ≤ 31
        omega
      · show weekdayOf year 10 (31 - k2.toNat) = 6
        have h31 : (31 - k2.toNat) + k2.toNat = 31 := by omega
        have := weekdayOf_add year 10 (31 - k2.toNat) k2.toNat
        rw [h31, ← hw2def] at this
        have hX : 0 ≤ weekdayOf year 10 (31 - k2.toNat) ∧
            weekdayOf year 10 (31 - k2.toNat) < 7 := by
          unfold weekdayOf; omega
        omega
  · rfl

theorem tzrange_default_transitions_witness :
    (∃ s e,
      transitions
          (tzrangeInit ("EST") (some (-18000)) (some ("EDT")) none .noneArg .noneArg)
          2023 = some (s, e) ∧
      s.year = 2023 ∧ s.month = 4 ∧ 1 ≤ s.day ∧ s.day ≤ 7 ∧
      weekdayOf s.year s.month s.day = 6 ∧ s.sod = 7200 ∧
      e.year = 2023 ∧ e.month = 10 ∧ 25 ≤ e.day ∧ e.day ≤ 31 ∧
      weekdayOf e.year e.month e.day = 6 ∧ e.sod = 3600) ∧
    transitions (tzrangeInit ("EST") (some (-18000)) none none .noneArg .noneArg)
      2023 = none :=
  tzrange_default_transitions ("EST") ("EDT") (-18000) 2023 (by decide)



/-! ## tzical (tz.py lines 614-914)

The string primitives below mirror the Python built-ins the parser uses
(`splitlines`, `rstrip`, `split`, `upper`, `int`), implemented over the
character list of a `String`. -/

/-- Helper of `charsSplit`, carrying the current chunk reversed. -/
def charsSplitAux (sep : Char) : List Char → List Char → List (List Char)
  | [], acc => [acc.reverse]
  | c :: cs, acc =>
      if c = sep then acc.reverse :: charsSplitAux sep cs []
      else charsSplitAux sep cs (c :: acc)

/-- `str.split(sep)`: split at every separator. -/
def charsSplit (sep : Char) (l : List Char) : List (List Char) :=
  charsSplitAux sep l []

/-- `str.split(sep)` on strings. -/
def splitStr (sep : Char) (s : String) : List String :=
  (charsSplit sep s.data).map (fun l => String.mk l)

/-- `str.rstrip()`: drop trailing whitespace. -/
def rstrip (s : String) : String :=
  String.mk ((s.data.reverse.dropWhile Char.isWhitespace).reverse)

/-- `str.lstrip()`: drop leading whitespace. -/
def lstrip (s : String) : String :=
  String.mk (s.data.dropWhile Char.isWhitespace)

/-- `str.strip()`. -/
def strip (s : String) : String := rstrip (lstrip s)

/-- Helper of `splitFirst`. -/
def splitFirstAux (sep : Char) : List Char → List Char → Option (List Char × List Char)
  | [], _ => none
  | c :: cs, acc =>
      if c = sep then some (acc.reverse, cs) else splitFirstAux sep cs (c :: acc)

/-- `str.split(sep, 1)`: split at the first separator only, `none` when
the separator does not occur (Python's two-name unpacking then raises). -/
def splitFirst (sep : Char) (s : String) : Option (String × String) :=
  (splitFirstAux sep s.data []).map (fun p => (String.mk p.1, String.mk p.2))

/-- Whether the first character of a string is `c` (`s[0] == c`). -/
def headIs (c : Char) (s : String) : Bool :=
  match s.data with
  | [] => false
  | a :: _ => a = c

/-- `s[n:]`. -/
def dropStr (n : Nat) (s : String) : String := String.mk (s.data.drop n)

/-- `s[:n]`. -/
def takeStr (n : Nat) (s : String) : String := String.mk (s.data.take n)

/-- `str.upper()`. -/
def strUpper (s : String) : String := String.mk (s.data.map Char.toUpper)

/-- Helper of `strToNat`. -/
def digitsToNatAux : List Char → Nat → Option Nat
  | [], acc => some acc
  | c :: cs, acc =>
      if c.isDigit then digitsToNatAux cs (acc * 10 + (c.toNat - 48)) else none

/-- `int(s)` restricted to plain digit strings, `none` where Python
raises. -/
def strToNat (s : String) : Option Nat :=
  match s.data with
  | [] => none
  | l => digitsToNatAux l 0

/-- `tzical._parse_offset` from tz.py: a signed HHMM or HHMMSS offset in
seconds. -/
def parse_offset (s0 : String) : Except String Int :=
  let s := strip s0
  if s = "" then .error ("empty offset")
  else
    let sig : Int × String :=
      if headIs '+' s then (1, dropStr 1 s)
      else if headIs '-' s then (-1, dropStr 1 s)
      else (1, s)
    let signal := sig.1
    let s := sig.2
    if s.length = 4 then
      match strToNat (takeStr 2 s), strToNat (dropStr 2 s) with
      | some hh, some mm => .ok (((hh : Int) * 3600 + (mm : Int) * 60) * signal)
      | _, _ => .error ("invalid literal for int(): " ++ s)
    else if s.length = 6 then
      match strToNat (takeStr 2 s), strToNat (takeStr 2 (dropStr 2 s)),
          strToNat (dropStr 4 s) with
      | some hh, some mm, some ss =>
          .ok (((hh : Int) * 3600 + (mm : Int) * 60 + (ss : Int)) * signal)
      | _, _, _ => .error ("invalid literal for int(): " ++ s)
    else .error ("invalid offset: " ++ s)

/-- The unfolding loop of `tzical._parse_rfc`: drop blank lines and glue
RFC 5545 continuation lines (leading space, rstripped, first character
removed) onto the previous kept line, which itself is stored
unstripped exactly as the source does. -/
def icalUnfold (lines : List String) : List String :=
  (lines.foldl (fun acc l0 =>
    let l := rstrip l0
    if l = "" then acc
    else
      match acc with
      | prev :: rest =>
          if headIs ' ' l then (prev ++ dropStr 1 l) :: rest
          else l0 :: prev :: rest
      | [] => [l0]) []).reverse

/-- `_tzicalvtzcomp` as built by the parser: offsets in seconds; the
recurrence evaluator is an external collaborator, so `rrule` keeps the
joined `DTSTART`/`RRULE`/`RDATE`/`EXRULE`/`EXDATE` lines handed to it. -/
structure IcalComp where
  tzoffsetfrom : Int
  tzoffsetto : Int
  isdst : Bool
  tzname : Option String
  rrule : Option String
deriving DecidableEq

/-- The loop state of `tzical._parse_rfc`: the locals of the source's
line loop plus the accumulated TZID → components mapping. -/
structure IcalState where
  tzid : Option String := none
  comps : List IcalComp := []
  invtz : Bool := false
  comptype : Option String := none
  founddtstart : Bool := false
  tzoffsetfrom : Option Int := none
  tzoffsetto : Option Int := none
  rrulelines : List String := []
  tzname : Option String := none
  vtz : List (String × List IcalComp) := []
deriving DecidableEq

/-- Dictionary assignment `self._vtz[tzid] = ...` on an association
list. -/
def dictInsert (d : List (String × List IcalComp)) (k : String)
    (v : List IcalComp) : List (String × List IcalComp) :=
  if d.any (fun p => p.1 = k) then
    d.map (fun p => if p.1 = k then (k, v) else p)
  else d ++ [(k, v)]

/-- `"\n".join(lines)`. -/
def joinLines (ls : List String) : String :=
  match ls with
  | [] => ""
  | l :: rest => rest.foldl (fun acc x => acc ++ "\n" ++ x) l

/-- One iteration of the line loop of `tzical._parse_rfc`. -/
def processLine (st : IcalState) (line : String) : Except String IcalState :=
  if line = "" then .ok st
  else
    match splitFirst ':' line with
    | none => .error ("not enough values to unpack (expected 2, got 1)")
    | some (nameField, value) =>
      match charsSplit ';' nameField.data with
      | [] => .error ("empty property name")
      | p0 :: parmsRest0 =>
        let name := strUpper (String.mk p0)
        let parms := parmsRest0.map (fun l => String.mk l)
        if st.invtz then
          if name = "BEGIN" then
            if value = "STANDARD" ∨ value = "DAYLIGHT" then
              .ok { st with
                    comptype := some value, founddtstart := false,
                    tzoffsetfrom := none, tzoffsetto := none,
                    rrulelines := [], tzname := none }
            else .error ("unknown component: " ++ value)
          else if name = "END" then
            if value = "VTIMEZONE" then
              if strTruthy st.comptype then
                .error ("component not closed: " ++ st.comptype.getD "")
              else if !strTruthy st.tzid then
                .error ("mandatory TZID not found")
              else if st.comps = [] then
                .error ("at least one component is needed")
              else
                .ok { st with
                      vtz := dictInsert st.vtz (st.tzid.getD "") st.comps,
                      invtz := false }
            else if some value = st.comptype then
              if !st.founddtstart then .error ("mandatory DTSTART not found")
              else if st.tzoffsetfrom = none then
                .error ("mandatory TZOFFSETFROM not found")
              else if st.tzoffsetto = none then
                .error ("mandatory TZOFFSETFROM not found")
              else
                let rr := if st.rrulelines ≠ [] then some (joinLines st.rrulelines)
                  else none
                let comp : IcalComp :=
                  { tzoffsetfrom := st.tzoffsetfrom.getD 0,
                    tzoffsetto := st.tzoffsetto.getD 0,
                    isdst := st.comptype = some "DAYLIGHT",
                    tzname := st.tzname, rrule := rr }
                .ok { st with comps := st.comps ++ [comp], comptype := none }
            else .error ("invalid component end: " ++ value)
          else if strTruthy st.comptype then
            if name = "DTSTART" then
              match parms.find? (fun p => p ≠ "VALUE=DATE-TIME") with
              | some parm =>
                  .error ("Unsupported DTSTART param in VTIMEZONE: " ++ parm)
              | none =>
                  .ok { st with
                        rrulelines := st.rrulelines ++ [line],
                        founddtstart := true }
            else if name = "RRULE" ∨ name = "RDATE" ∨ name = "EXRULE" ∨
                name = "EXDATE" then
              .ok { st with rrulelines := st.rrulelines ++ [line] }
            else if name = "TZOFFSETFROM" then
              if parms ≠ [] then
                .error ("unsupported " ++ name ++ " parm: " ++ parms.headD "" ++ " ")
              else do
                let v ← parse_offset value
                .ok { st with tzoffsetfrom := some v }
            else if name = "TZOFFSETTO" then
              if parms ≠ [] then
                .error ("unsupported TZOFFSETTO parm: " ++ parms.headD "")
              else do
                let v ← parse_offset value
                .ok { st with tzoffsetto := some v }
            else if name = "TZNAME" then
              if parms ≠ [] then
                .error ("unsupported TZNAME parm: " ++ parms.headD "")
              else .ok { st with tzname := some value }
            else if name = "COMMENT" then .ok st
            else .error ("unsupported property: " ++ name)
          else
            if name = "TZID" then
              if parms ≠ [] then
                .error ("unsupported TZID parm: " ++ parms.headD "")
              else .ok { st with tzid := some value }
            else if name = "TZURL" ∨ name = "LAST-MODIFIED" ∨ name = "COMMENT" then
              .ok st
            else .error ("unsupported property: " ++ name)
        else
          if name = "BEGIN" ∧ value = "VTIMEZONE" then
            .ok { st with tzid := none, comps := [], invtz := true }
          else .ok st

/-- `tzical._parse_rfc` from tz.py, returning the TZID → components
mapping. -/
def parse_rfc (s : String) : Except String (List (String × List IcalComp)) :=
  if s = "" then .error ("empty string")
  else do
    let lines := icalUnfold (splitStr '\n' s)
    let st ← lines.foldlM processLine ({} : IcalState)
    .ok st.vtz

/-- A VTIMEZONE whose STANDARD component lacks the mandatory
TZOFFSETTO. -/
def icalMissingTo : String :=
  "BEGIN:VTIMEZONE\nTZID:Test\nBEGIN:STANDARD\nDTSTART:19671029T020000\nTZOFFSETFROM:-0400\nEND:STANDARD\nEND:VTIMEZONE"

/-- A VTIMEZONE whose STANDARD component lacks the mandatory
TZOFFSETFROM. -/
def icalMissingFrom : String :=
  "BEGIN:VTIMEZONE\nTZID:Test\nBEGIN:STANDARD\nDTSTART:19671029T020000\nTZOFFSETTO:-0500\nEND:STANDARD\nEND:VTIMEZONE"

/-- A VTIMEZONE whose STANDARD component lacks the mandatory DTSTART. -/
def icalMissingDtstart : String :=
  "BEGIN:VTIMEZONE\nTZID:Test\nBEGIN:STANDARD\nTZOFFSETFROM:-0400\nTZOFFSETTO:-0500\nEND:STANDARD\nEND:VTIMEZONE"

/-- The same VTIMEZONE with all mandatory fields present. -/
def icalComplete : String :=
  "BEGIN:VTIMEZONE\nTZID:Test\nBEGIN:STANDARD\nDTSTART:19671029T020000\nTZOFFSETFROM:-0400\nTZOFFSETTO:-0500\nEND:STANDARD\nEND:VTIMEZONE"

/-- Claim C8 (code_bug evidence): a component missing DTSTART or
TZOFFSETFROM fails naming the missing field, but a component missing
TZOFFSETTO fails with a message that names TZOFFSETFROM — the source
raises the wrong field name on that branch — while the same input with
TZOFFSETTO present parses. -/
theorem tzical_missing_mandatory :
    parse_rfc icalMissingDtstart = .error ("mandatory DTSTART not found") ∧
    parse_rfc icalMissingFrom = .error ("mandatory TZOFFSETFROM not found") ∧
    parse_rfc icalMissingTo = .error ("mandatory TZOFFSETFROM not found") ∧
    parse_rfc icalComplete =
      .ok [("Test",
        [{ tzoffsetfrom := -14400, tzoffsetto := -18000,
           isdst := false, tzname := none,
           rrule := some "DTSTART:19671029T020000" }])] := by
  refine ⟨rfl, rfl, rfl, rfl⟩

/-- A component as `_tzicalvtz` queries it: the recurrence rule is
abstracted to its `rrule.before(dt, inc=True)` query (the evaluator is
an external collaborator). -/
structure VtzComp where
  tzoffsetfrom : Int
  tzoffsetto : Int
  isdst : Bool
  tzname : Option String := none
  rruleBefore : Int → Option Int

/-- `_tzicalvtzcomp.tzoffsetdiff`. -/
def tzoffsetdiff (c : VtzComp) : Int := c.tzoffsetto - c.tzoffsetfrom

/-- `_tzicalvtz._find_compdt` from tz.py. -/
def find_compdt (c : VtzComp) (dt : Int) (fold : Bool) : Option Int :=
  let dt := if tzoffsetdiff c < 0 ∧ fold then dt - tzoffsetdiff c else dt
  c.rruleBefore dt

/-- `_tzicalvtz._find_comp` from tz.py: keep the component whose last
occurrence at or before `dt` is the most recent; when no component has
occurred yet, fall back to the first STANDARD component in definition
order, and when every component is DAYLIGHT the source executes
`lastcomp = comp[0]`, indexing a `_tzicalvtzcomp` — a TypeError, embedded
as the error case (an empty list, impossible out of the parser, likewise
raises there).  The memo cache of the source only replays results of
this same computation and is dropped. -/
def find_comp (comps : List VtzComp) (dt : Int) (fold : Bool) :
    Except String VtzComp :=
  match comps with
  | [c] => .ok c
  | _ =>
    let best := comps.foldl (fun acc c =>
      match find_compdt c dt fold with
      | some compdt =>
          match acc with
          | none => some (compdt, c)
          | some (l, _) => if l < compdt then some (compdt, c) else acc
      | none => acc) none
    match best with
    | some (_, c) => .ok c
    | none =>
        match comps.find? (fun c => !c.isdst) with
        | some c => .ok c
        | none => .error ("TypeError: _tzicalvtzcomp object is not subscriptable")

/-- `_tzicalvtz.utcoffset` for a non-None dt. -/
def vtz_utcoffset (comps : List VtzComp) (dt : Int) (fold : Bool) :
    Except String Int :=
  (find_comp comps dt fold).map (fun c => c.tzoffsetto)

/-- `_tzicalvtz.dst`. -/
def vtz_dst (comps : List VtzComp) (dt : Int) (fold : Bool) :
    Except String Int :=
  (find_comp comps dt fold).map (fun c => if c.isdst then tzoffsetdiff c else 0)

/-- `_tzicalvtz.tzname`. -/
def vtz_tzname (comps : List VtzComp) (dt : Int) (fold : Bool) :
    Except String (Option String) :=
  (find_comp comps dt fold).map (fun c => c.tzname)

/-- A DAYLIGHT component whose recurrence has no occurrence before any
queried time. -/
def compDst1 : VtzComp :=
  { tzoffsetfrom := -18000, tzoffsetto := -14400, isdst := true,
    tzname := some "D1", rruleBefore := fun _ => none }

/-- A second such DAYLIGHT component. -/
def compDst2 : VtzComp :=
  { tzoffsetfrom := -14400, tzoffsetto := -18000, isdst := true,
    tzname := some "D2", rruleBefore := fun _ => none }

/-- A STANDARD component with no occurrence before any queried time. -/
def compStd : VtzComp :=
  { tzoffsetfrom := -14400, tzoffsetto := -18000, isdst := false,
    tzname := some "S", rruleBefore := fun _ => none }

/-- Claim C1 (code_bug evidence): with several components and a time
before every component's first occurrence, the first STANDARD component
in definition order is used for utcoffset/dst/tzname; but when no
STANDARD component exists the source crashes on `comp[0]` instead of
using the first defined component as its own comment promises. -/
theorem tzical_find_comp_before_first_onset :
    find_comp [compDst1, compStd, compDst2] 0 false = .ok compStd ∧
    vtz_utcoffset [compDst1, compStd, compDst2] 0 false = .ok (-18000) ∧
    vtz_dst [compDst1, compStd, compDst2] 0 false = .ok 0 ∧
    vtz_tzname [compDst1, compStd, compDst2] 0 false = .ok (some "S") ∧
    find_comp [compDst1, compDst2] 0 false =
      .error ("TypeError: _tzicalvtzcomp object is not subscriptable") := by
  refine ⟨rfl, rfl, rfl, rfl, rfl⟩



/-! ## The gettz cache (tz.py lines 928-1138)

`GettzFunc` holds a weak instance dictionary, a strong bounded MRU
`OrderedDict` (modelled as a list whose front is the least recently used
entry) and its size.  Zones are abstracted to identifiers; `nocache` is
the zone constructor, reporting whether the result is a tzlocal-class
instance (never cached), and garbage collection of the weak tier is an
explicit adversarial operation. -/

/-- Dictionary lookup on an association list. -/
def lookupA (l : List (Option String × Nat)) (k : Option String) : Option Nat :=
  (l.find? (fun p => decide (p.1 = k))).map (fun p => p.2)

/-- Remove a key from an association list (the removal side of
`OrderedDict.pop`). -/
def eraseA (l : List (Option String × Nat)) (k : Option String) :
    List (Option String × Nat) :=
  l.filter (fun p => decide (p.1 ≠ k))

/-- Dictionary assignment on an association list. -/
def insertA (l : List (Option String × Nat)) (k : Option String) (v : Nat) :
    List (Option String × Nat) :=
  if l.any (fun p => decide (p.1 = k)) then
    l.map (fun p => if p.1 = k then (k, v) else p)
  else l ++ [(k, v)]

/-- The `while len(cache) > size: cache.popitem(last=False)` loop of
`set_cache_size`: drop least-recently-used entries from the front. -/
def trimLRU : List (Option String × Nat) → Nat → List (Option String × Nat)
  | [], _ => []
  | x :: xs, n => if (x :: xs).length ≤ n then x :: xs else trimLRU xs n

/-- The mutable state of `GettzFunc`. -/
structure GettzState where
  instances : List (Option String × Nat) := []
  strong_cache : List (Option String × Nat) := []
  strong_cache_size : Nat := 8
deriving DecidableEq

/-- `self.__strong_cache[name] = self.__strong_cache.pop(name, rv)`
followed by the single `popitem(last=False)` eviction when the bound is
exceeded. -/
def strongUpdate (st : GettzState) (name : Option String) (rv : Nat) :
    GettzState :=
  let v := (lookupA st.strong_cache name).getD rv
  let sc := eraseA st.strong_cache name ++ [(name, v)]
  let sc2 := if st.strong_cache_size < sc.length then sc.drop 1 else sc
  { st with strong_cache := sc2 }

/-- `GettzFunc.__call__` from tz.py: weak-cache hit, or construct via
`nocache` and cache unless the name is None, the zone is a tzlocal class
or nothing was found (those return without touching the strong cache). -/
def gettzCall (nocache : Option String → Option (Nat × Bool))
    (st : GettzState) (name : Option String) : GettzState × Option Nat :=
  match lookupA st.instances name with
  | some rv => ((strongUpdate st name rv), some rv)
  | none =>
      match nocache name with
      | none => (st, none)
      | some (rv, isLocalClass) =>
          if name = none ∨ isLocalClass then (st, some rv)
          else
            let st2 := { st with instances := insertA st.instances name rv }
            ((strongUpdate st2 name rv), some rv)

/-- The operations on the cache state: a gettz call, `set_cache_size`,
`cache_clear`, and a garbage-collection step that may drop weak entries
whose key died and whose value the strong cache does not pin. -/
inductive GettzOp where
  | call (name : Option String)
  | setCacheSize (n : Nat)
  | cacheClear
  | gc (dead : List (Option String))

/-- One operation applied to the state. -/
def gettzStep (nocache : Option String → Option (Nat × Bool))
    (st : GettzState) : GettzOp → GettzState
  | .call name => (gettzCall nocache st name).1
  | .setCacheSize n =>
      { st with strong_cache_size := n,
                strong_cache := trimLRU st.strong_cache n }
  | .cacheClear => { st with instances := [], strong_cache := [] }
  | .gc dead =>
      { st with instances := st.instances.filter (fun p =>
          decide (¬ p.1 ∈ dead) ||
          st.strong_cache.any (fun q => decide (q.2 = p.2))) }

/-- A sequence of operations run from the initial state (empty caches,
size 8 as in `GettzFunc.__init__`). -/
def gettzRun (nocache : Option String → Option (Nat × Bool))
    (ops : List GettzOp) : GettzState :=
  ops.foldl (gettzStep nocache) {}

/-- `trimLRU` enforces its bound. -/
theorem trimLRU_length_le (l : List (Option String × Nat)) (n : Nat) :
    (trimLRU l n).length ≤ n := by
  induction l with
  | nil => simp [trimLRU]
  | cons x xs ih =>
      rw [trimLRU]
      split
      · omega
      · exact ih

/-- The strong-cache update keeps the bound once it holds. -/
theorem strongUpdate_length_le (st : GettzState) (name : Option String)
    (rv : Nat) (h : st.strong_cache.length ≤ st.strong_cache_size) :
    (strongUpdate st name rv).strong_cache.length ≤
      (strongUpdate st name rv).strong_cache_size := by
  have he : (eraseA st.strong_cache name).length ≤ st.strong_cache.length :=
    List.length_filter_le _ _
  simp only [strongUpdate]
  split
  all_goals
    rename_i hcond
    simp only [List.length_drop, List.length_append, List.length_cons,
      List.length_nil] at hcond ⊢
    omega

/-- Every operation preserves the strong-cache bound. -/
theorem gettzStep_preserves (nocache : Option String → Option (Nat × Bool))
    (st : GettzState) (op : GettzOp)
    (h : st.strong_cache.length ≤ st.strong_cache_size) :
    (gettzStep nocache st op).strong_cache.length ≤
      (gettzStep nocache st op).strong_cache_size := by
  cases op with
  | call name =>
      simp only [gettzStep]
      unfold gettzCall
      cases hl : lookupA st.instances name with
      | some rv =>
          dsimp only
          exact strongUpdate_length_le st name rv h
      | none =>
          cases hn : nocache name with
          | none => dsimp only; exact h
          | some p =>
              obtain ⟨rv, isLocalClass⟩ := p
              dsimp only
              by_cases hc : name = none ∨ isLocalClass = true
              · rw [if_pos hc]
                exact h
              · rw [if_neg hc]
                exact strongUpdate_length_le
                  { st with instances := insertA st.instances name rv }
                  name rv (by simpa using h)
  | setCacheSize n =>
      dsimp only [gettzStep]
      exact trimLRU_length_le _ _
  | cacheClear => simp [gettzStep]
  | gc dead =>
      dsimp only [gettzStep]
      exact h

/-- The bound is an invariant of every run. -/
theorem gettzRun_inv (nocache : Option String → Option (Nat × Bool))
    (ops : List GettzOp) :
    ∀ st : GettzState, st.strong_cache.length ≤ st.strong_cache_size →
      ((ops.foldl (gettzStep nocache) st).strong_cache.length ≤
        (ops.foldl (gettzStep nocache) st).strong_cache_size) := by
  induction ops with
  | nil => intro st h; exact h
  | cons op rest ih =>
      intro st h
      exact ih _ (gettzStep_preserves nocache st op h)

/-- Popping an absent key leaves the association list unchanged. -/
theorem eraseA_of_lookupA_none (l : List (Option String × Nat))
    (k : Option String) (h : lookupA l k = none) : eraseA l k = l := by
  induction l with
  | nil => rfl
  | cons x xs ih =>
      rw [lookupA, List.find?] at h
      cases hx : decide (x.1 = k) with
      | true => rw [hx] at h; simp at h
      | false =>
          rw [hx] at h
          have hxs : lookupA xs k = none := by rw [lookupA]; simpa using h
          rw [eraseA, List.filter_cons_of_pos (by simpa using hx)]
          have hrec := ih hxs
          rw [eraseA] at hrec
          rw [hrec]

/-- Claim C9: after any sequence of gettz calls the strong MRU cache
holds at most the configured size (default 8); `set_cache_size(n)`
immediately trims to at most `n`; `cache_clear` empties both caches; and
when a call inserts a fresh name into a full strong cache, the evicted
entry is the front — the least recently used. -/
theorem gettz_strong_cache_bounded
    (nocache : Option String → Option (Nat × Bool)) (ops : List GettzOp)
    (n : Nat) :
    (gettzRun nocache ops).strong_cache.length ≤
      (gettzRun nocache ops).strong_cache_size ∧
    (gettzRun nocache (ops ++ [.setCacheSize n])).strong_cache.length ≤ n ∧
    (gettzRun nocache (ops ++ [.cacheClear])).strong_cache = [] ∧
    (gettzRun nocache (ops ++ [.cacheClear])).instances = [] ∧
    (∀ st : GettzState, ∀ name rv,
      lookupA st.strong_cache name = none →
      st.strong_cache_size < st.strong_cache.length + 1 →
      (strongUpdate st name rv).strong_cache =
        (st.strong_cache ++ [(name, rv)]).drop 1) := by
  refine ⟨?_, ?_, ?_, ?_, ?_⟩
  · exact gettzRun_inv nocache ops {} (by simp)
  · rw [gettzRun, List.foldl_append]
    exact trimLRU_length_le _ _
  · rw [gettzRun, List.foldl_append]
    rfl
  · rw [gettzRun, List.foldl_append]
    rfl
  · intro st name rv hnone hover
    unfold strongUpdate
    rw [eraseA_of_lookupA_none st.strong_cache name hnone, hnone]
    simp only [Option.getD_none]
    rw [if_pos (by simpa using hover)]

theorem gettz_strong_cache_bounded_witness :
    (gettzRun (fun _ => some (7, false)) [.call (some "A")]).strong_cache.length ≤
      (gettzRun (fun _ => some (7, false)) [.call (some "A")]).strong_cache_size ∧
    (gettzRun (fun _ => some (7, false))
        ([.call (some "A")] ++ [.setCacheSize 0])).strong_cache.length ≤ 0 ∧
    (gettzRun (fun _ => some (7, false))
        ([.call (some "A")] ++ [.cacheClear])).strong_cache = [] ∧
    (gettzRun (fun _ => some (7, false))
        ([.call (some "A")] ++ [.cacheClear])).instances = [] ∧
    (strongUpdate { strong_cache := [(some "B", 1)], strong_cache_size := 1 }
        (some "A") 7).strong_cache =
      (([(some "B", 1)] : List (Option String × Nat)) ++ [(some "A", 7)]).drop 1 := by
  have h := gettz_strong_cache_bounded (fun _ => some (7, false))
    [.call (some "A")] 0
  exact ⟨h.1, h.2.1, h.2.2.1, h.2.2.2.1,
    h.2.2.2.2 { strong_cache := [(some "B", 1)], strong_cache_size := 1 }
      (some "A") 7 rfl (by decide)⟩

end DateutilTz
